import Mathlib

/-!
Verification of the store-rating backend (Express + PostgreSQL) against its
natural-language specification.  The definitions below are a shallow
embedding of the route handlers in `src/routes/*.js`, the auth routes, and
the schema in `src/database/schema.sql`.  Database tables are lists of
rows, each HTTP handler is a pure function from the database state and the
request data to a response (and, for writes, the new database state), and
thrown JavaScript or database errors are made explicit with `Except`.
-/

namespace StoreRatings

/-- An HTTP JSON response: either a success (`res.status(s).json(payload)`)
or an error (`res.status(s).json(\x7b message \x7d)`). -/
inductive Resp (α : Type) where
  | success (status : Nat) (payload : α)
  | failure (status : Nat) (message : String)
  deriving DecidableEq, Repr

/-- The generic catch-all response `res.status(500).json(\x7b message: 'Internal server error' \x7d)`. -/
def internalServerError {α : Type} : Resp α :=
  Resp.failure 500 "Internal server error"

/-- Row of the `users` table (schema.sql lines 5-14). -/
structure UserRow where
  id : Nat
  name : String
  email : String
  password_hash : String
  address : String
  role : String
  created_at : Nat
  deriving DecidableEq, Repr

/-- Row of the `stores` table (schema.sql lines 17-25). -/
structure StoreRow where
  id : Nat
  name : String
  email : String
  address : String
  owner_id : Option Nat
  created_at : Nat
  deriving DecidableEq, Repr

/-- Row of the `ratings` table (schema.sql lines 28-37). -/
structure RatingRow where
  id : Nat
  user_id : Nat
  store_id : Nat
  rating : Int
  comment : Option String
  created_at : Nat
  updated_at : Nat
  deriving DecidableEq, Repr

/-- The database state: the three tables, the SERIAL id counters, and the
current timestamp used for `CURRENT_TIMESTAMP`. -/
structure Db where
  users : List UserRow
  stores : List StoreRow
  ratings : List RatingRow
  nextUserId : Nat
  nextRatingId : Nat
  now : Nat
  deriving DecidableEq, Repr

/-- The JavaScript coercion `comment || null`: `undefined` and the empty
string (both falsy) become SQL NULL. -/
def jsOrNull : Option String → Option String
  | some s => if s = "" then none else some s
  | none => none

/-- SQL `COALESCE(AVG(rating), 0)` over a list of rating values: `AVG` is
NULL on an empty group, which `COALESCE` replaces by 0. -/
def sqlAvg (l : List Int) : ℚ :=
  if l.length = 0 then 0 else (l.sum : ℚ) / (l.length : ℚ)

/-- The rating values of a store, i.e. the `rating` column of
`ratings WHERE store_id = $1` (equivalently of the LEFT JOIN group for the
store in the aggregate queries). -/
def storeRatingValues (db : Db) (storeId : Nat) : List Int :=
  (db.ratings.filter fun r => r.store_id == storeId).map RatingRow.rating

/-- `COALESCE(AVG(r.rating), 0)` for one store, as computed by the
aggregate queries in `stores.js` and by the `store_ratings_summary` view. -/
def storeAverage (db : Db) (storeId : Nat) : ℚ :=
  sqlAvg (storeRatingValues db storeId)

/-- `COUNT(r.id)` for one store in the LEFT JOIN aggregate queries: counts
the matching ratings, 0 when the store has none. -/
def storeCount (db : Db) (storeId : Nat) : Nat :=
  (storeRatingValues db storeId).length

/-- The WHERE key of the upsert queries in `ratings.js`:
`user_id = $1 AND store_id = $2`. -/
def ratingKey (u s : Nat) (r : RatingRow) : Bool :=
  r.user_id == u && r.store_id == s

/-- The `UNIQUE(user_id, store_id)` constraint of the `ratings` table
(schema.sql line 36): no two rows share a (user, store) pair. -/
def RatingsUnique (db : Db) : Prop :=
  db.ratings.Pairwise fun a b => ¬(a.user_id = b.user_id ∧ a.store_id = b.store_id)

instance (db : Db) : Decidable (RatingsUnique db) := by
  unfold RatingsUnique; infer_instance

/-- `SELECT id FROM stores WHERE id = $1` returns a row
(`storeResult.rows.length > 0`). -/
def storeExists (db : Db) (storeId : Nat) : Bool :=
  (db.stores.find? fun s => s.id == storeId).isSome

/-- Payload of a successful rating submission: the message and the
recomputed store statistics (`ratings.js` lines 46-50 and 67-71). -/
structure SubmitPayload where
  message : String
  average_rating : ℚ
  total_ratings : Nat
  deriving DecidableEq, Repr

/-- Modelled from the spec: the `validateRating` middleware lives in
`src/middleware/validation.js`, which is not part of the provided sources;
per the spec (4.2) it checks that the submitted rating is an integer in
[1,5] and rejects with a bad-request error before the handler runs.
`none` stands for a missing or non-integer rating value. -/
def validateRating : Option Int → Bool
  | some r => decide (1 ≤ r) && decide (r ≤ 5)
  | none => false

/-- The body of `POST /api/ratings/:storeId` (`ratings.js` lines 12-78)
after validation: verify the store exists (else 404), then check for an
existing (user, store) rating; if present UPDATE its rating, comment and
`updated_at` in place (responding 200), otherwise INSERT a new row
(responding 201).  Either way the response carries the recomputed store
statistics. -/
def submitRatingHandler (db : Db) (userId storeId : Nat) (rating : Int)
    (comment : Option String) : Db × Resp SubmitPayload :=
  if ¬ storeExists db storeId then
    (db, Resp.failure 404 "Store not found")
  else
    match db.ratings.find? (ratingKey userId storeId) with
    | some _ =>
      let ratings := db.ratings.map fun r =>
        if ratingKey userId storeId r then
          { r with rating := rating, comment := jsOrNull comment, updated_at := db.now }
        else r
      let db₁ := { db with ratings := ratings }
      (db₁, Resp.success 200
        ⟨"Rating updated successfully", storeAverage db₁ storeId, storeCount db₁ storeId⟩)
    | none =>
      let row : RatingRow :=
        ⟨db.nextRatingId, userId, storeId, rating, jsOrNull comment, db.now, db.now⟩
      let db₁ := { db with ratings := db.ratings ++ [row],
                           nextRatingId := db.nextRatingId + 1 }
      (db₁, Resp.success 201
        ⟨"Rating submitted successfully", storeAverage db₁ storeId, storeCount db₁ storeId⟩)

/-- The full `POST /api/ratings/:storeId` route: the (spec-modelled)
`validateRating` middleware runs first and rejects with a 400 validation
error without touching the database; otherwise the handler body runs. -/
def postRatingRoute (db : Db) (userId storeId : Nat) (rating : Option Int)
    (comment : Option String) : Db × Resp SubmitPayload :=
  if validateRating rating then
    submitRatingHandler db userId storeId (rating.getD 0) comment
  else
    (db, Resp.failure 400 "Rating must be an integer between 1 and 5")

/-- `DELETE /api/ratings/:ratingId` (`ratings.js` lines 127-164): look up
the rating by `id = $1 AND user_id = $2`; if absent respond 404 without
touching the table, otherwise DELETE the row by id and respond with the
recomputed store statistics. -/
def deleteRatingRoute (db : Db) (userId ratingId : Nat) : Db × Resp SubmitPayload :=
  match db.ratings.find? fun r => r.id == ratingId && r.user_id == userId with
  | none => (db, Resp.failure 404 "Rating not found or unauthorized")
  | some row =>
    let db₁ := { db with ratings := db.ratings.filter fun r => ¬(r.id == ratingId) }
    (db₁, Resp.success 200
      ⟨"Rating deleted successfully", storeAverage db₁ row.store_id, storeCount db₁ row.store_id⟩)

/-! ### Authentication routes (`src/unnamed/part_002`, mounted at `/api/auth`)

The password-hashing and token libraries (bcryptjs, jsonwebtoken) are
external collaborators excluded by the spec; they are modelled by their
contracts: `bcryptCompare p (bcryptHash p) = true`, and a signed token
decodes back to its claims. -/

/-- Model of `bcrypt.hash(password, 10)`: an opaque-looking injective tag. -/
def bcryptHash (password : String) : String :=
  "$2a$10$" ++ password

/-- Model of `bcrypt.compare(password, hash)`: true exactly when the hash
was produced from the password. -/
def bcryptCompare (password hash : String) : Bool :=
  hash == bcryptHash password

/-- The claims placed in a token by `jwt.sign(\x7b userId, email, role \x7d, secret)`. -/
structure JwtClaims where
  userId : Nat
  email : String
  role : String
  deriving DecidableEq, Repr

/-- A signed token: carries its claims and the signing secret. -/
structure JwtToken where
  claims : JwtClaims
  secret : String
  deriving DecidableEq, Repr

/-- `process.env.JWT_SECRET`, an externally supplied constant. -/
def jwtSecret : String := "JWT_SECRET"

/-- Model of `jwt.sign`. -/
def jwtSign (c : JwtClaims) (secret : String) : JwtToken := ⟨c, secret⟩

/-- Model of decoding/verifying a token: recover its claims. -/
def jwtDecode (t : JwtToken) : JwtClaims := t.claims

/-- Modelled from the spec: the `validateUserRegistration` middleware lives
in `src/middleware/validation.js`, which is not part of the provided
sources; per the spec (4.2) it checks name length 20-60, address at most
400 characters, a password minimum length, and a plausible email format. -/
def validRegistration (name email password address : String) : Bool :=
  decide (20 ≤ name.length) && decide (name.length ≤ 60) &&
  decide (address.length ≤ 400) && decide (8 ≤ password.length) &&
  email.data.contains '@'

/-- Payload of a successful register/login response: the selected user
columns and the signed token. -/
structure AuthPayload where
  message : String
  userId : Nat
  name : String
  email : String
  address : String
  role : String
  token : JwtToken
  deriving DecidableEq, Repr

/-- `POST /api/auth/register`: after the (spec-modelled) validation, check
the email is not taken (else 400), hash the password, INSERT the user with
role `normal_user`, sign a token over (userId, email, role) and respond
201. -/
def registerRoute (db : Db) (name email password address : String) :
    Db × Resp AuthPayload :=
  if ¬ validRegistration name email password address then
    (db, Resp.failure 400 "Invalid registration payload")
  else if (db.users.find? fun u => u.email == email).isSome then
    (db, Resp.failure 400 "User with this email already exists")
  else
    let user : UserRow :=
      ⟨db.nextUserId, name, email, bcryptHash password, address, "normal_user", db.now⟩
    let db₁ := { db with users := db.users ++ [user], nextUserId := db.nextUserId + 1 }
    let token := jwtSign ⟨user.id, user.email, user.role⟩ jwtSecret
    (db₁, Resp.success 201
      ⟨"User registered successfully", user.id, user.name, user.email, user.address,
        user.role, token⟩)

/-- `POST /api/auth/login`: find the user by email (else 401), compare the
password with the stored hash (else 401), sign a token over
(userId, email, role) and respond 200. -/
def loginRoute (db : Db) (email password : String) : Resp AuthPayload :=
  match db.users.find? fun u => u.email == email with
  | none => Resp.failure 401 "Invalid email or password"
  | some u =>
    if bcryptCompare password u.password_hash then
      Resp.success 200
        ⟨"Login successful", u.id, u.name, u.email, u.address, u.role,
          jwtSign ⟨u.id, u.email, u.role⟩ jwtSecret⟩
    else
      Resp.failure 401 "Invalid email or password"

/-! ### Store read endpoints (`src/routes/stores.js`) -/

/-- Payload of `GET /api/stores/:id`: the store columns together with the
aggregates `COALESCE(AVG(r.rating), 0)` and `COUNT(r.id)` from the
LEFT JOIN / GROUP BY query (`stores.js` lines 87-95). -/
structure StoreDetail where
  id : Nat
  name : String
  address : String
  created_at : Nat
  average_rating : ℚ
  total_ratings : Nat
  deriving DecidableEq, Repr

/-- `GET /api/stores/:id` (`stores.js` lines 82-109): the LEFT JOIN keeps a
single group for the store when it exists (404 otherwise), carrying its
average rating (0 when it has none) and rating count. -/
def getStoreById (db : Db) (id : Nat) : Resp StoreDetail :=
  match db.stores.find? fun s => s.id == id with
  | none => Resp.failure 404 "Store not found"
  | some s =>
    Resp.success 200
      ⟨s.id, s.name, s.address, s.created_at, storeAverage db s.id, storeCount db s.id⟩

/-! ### List endpoints: search, sort validation, pagination

All three paginated list handlers modelled here (`stores.js` GET `/`,
`admin.js` GET `/users`, `users.js` GET `/ratings`) destructure the query
parameters with `const` and then, in the allow-list check, assign to the
destructured binding (`if (!allowedSortFields.includes(sortBy)) sortBy =
...`).  In JavaScript an assignment to a `const` binding throws
`TypeError: Assignment to constant variable.` when it executes, so the
fallback branch throws instead of falling back; the surrounding
`try/catch` turns that into the generic 500 response.  The embedding makes
the thrown error explicit with `Except`. -/

/-- A JavaScript runtime error thrown inside a handler body. -/
inductive JsError where
  | constAssignTypeError
  deriving DecidableEq, Repr

/-- JavaScript `s.toLowerCase()`, character by character. -/
def jsToLower (s : String) : String :=
  ⟨s.data.map Char.toLower⟩

/-- The sort-field validation step, e.g. `stores.js` lines 30-33: an
omitted parameter takes the destructuring default (which is inside the
allow-list, so the fallback assignment never runs); a supplied value inside
the allow-list is kept; a supplied value outside it reaches the fallback
assignment `sortBy = default`, which throws because `sortBy` is a `const`
binding. -/
def resolveSortField (allowed : List String) (dflt : String) :
    Option String → Except JsError String
  | none => Except.ok dflt
  | some s => if allowed.contains s then Except.ok s else Except.error .constAssignTypeError

/-- `allowedSortOrders = ['asc', 'desc']`, shared by all list endpoints. -/
def allowedSortOrders : List String := ["asc", "desc"]

/-- The sort-order validation step, e.g. `stores.js` lines 31-34: same as
`resolveSortField` but checking `sortOrder.toLowerCase()` against the
allow-list (the kept value is the original, later upper-cased for the SQL
text). -/
def resolveSortOrder (dflt : String) : Option String → Except JsError String
  | none => Except.ok dflt
  | some s =>
    if allowedSortOrders.contains (jsToLower s) then Except.ok s
    else Except.error .constAssignTypeError

/-- `ORDER BY ... DESC` holds exactly when the kept sort order lower-cases
to `desc`. -/
def isDescOrder (s : String) : Bool := jsToLower s == "desc"

/-- SQL `haystack ILIKE '%' || needle || '%'`: case-insensitive substring
test, on the underlying character data. -/
def ilike (haystack needle : String) : Bool :=
  decide ((needle.data.map Char.toLower).IsInfix (haystack.data.map Char.toLower))

/-- `offset = (page - 1) * limit` with `LIMIT limit OFFSET offset`: the
rows of one page of a sorted row list. -/
def pageRows {α : Type} (rows : List α) (page limit : Nat) : List α :=
  (rows.drop ((page - 1) * limit)).take limit

/-- `totalPages = Math.ceil(total / limit)` (exact rational division, then
ceiling). -/
def totalPages (total limit : Nat) : Nat :=
  Nat.ceil ((total : ℚ) / (limit : ℚ))

/-- The pagination metadata object attached to every multi-row response. -/
structure Pagination where
  currentPage : Nat
  totalPages : Nat
  total : Nat
  limit : Nat
  deriving DecidableEq, Repr

/-- The WHERE clause of `stores.js` GET `/`: with a (truthy) search term,
`s.name ILIKE $1 OR s.address ILIKE $1`; otherwise `1=1`. -/
def storeMatchesSearch (search : Option String) (s : StoreRow) : Bool :=
  match search with
  | none => true
  | some q => ilike s.name q || ilike s.address q

/-- `allowedSortFields = ['name', 'address', 'created_at']`
(`stores.js` line 30). -/
def allowedSortFieldsStores : List String := ["name", "address", "created_at"]

/-- The comparison used by `ORDER BY s.<sortBy>` on the stores table. -/
def storeFieldLe (sortBy : String) (a b : StoreRow) : Prop :=
  if sortBy = "address" then a.address ≤ b.address
  else if sortBy = "created_at" then a.created_at ≤ b.created_at
  else a.name ≤ b.name

instance (sortBy : String) : DecidableRel (storeFieldLe sortBy) := by
  intro a b; unfold storeFieldLe; infer_instance

/-- `ORDER BY s.<sortBy> <sortOrder>` over the matching stores. -/
def sortStores (sortBy sortOrder : String) (l : List StoreRow) : List StoreRow :=
  if isDescOrder sortOrder then
    List.insertionSort (fun a b => storeFieldLe sortBy b a) l
  else
    List.insertionSort (fun a b => storeFieldLe sortBy a b) l

/-- One row of the stores-list payload: the store columns with the per-store
aggregates from the LEFT JOIN / GROUP BY (`stores.js` lines 46-60). -/
structure StoreListItem where
  id : Nat
  name : String
  address : String
  created_at : Nat
  average_rating : ℚ
  total_ratings : Nat
  deriving DecidableEq, Repr

/-- The SELECT list of the stores-list query applied to one store row. -/
def storeListItem (db : Db) (s : StoreRow) : StoreListItem :=
  ⟨s.id, s.name, s.address, s.created_at, storeAverage db s.id, storeCount db s.id⟩

/-- Payload of `GET /api/stores`. -/
structure StoresPayload where
  stores : List StoreListItem
  pagination : Pagination
  deriving DecidableEq, Repr

/-- `GET /api/stores` (`stores.js` lines 8-79): filter by the search term,
validate the sort parameters (a thrown `TypeError` from the `const`
fallback assignment is caught as the generic 500), count the matching
rows, compute `totalPages = Math.ceil(total/limit)`, and return the page
at `OFFSET (page-1)*limit` of the sorted rows with their aggregates. -/
def getStoresRoute (db : Db) (search sortByParam sortOrderParam : Option String)
    (page limit : Nat) : Resp StoresPayload :=
  match resolveSortField allowedSortFieldsStores "name" sortByParam,
        resolveSortOrder "asc" sortOrderParam with
  | Except.ok sb, Except.ok so =>
    let matching := db.stores.filter (storeMatchesSearch (jsOrNull search))
    let total := matching.length
    let sorted := sortStores sb so matching
    Resp.success 200
      ⟨(pageRows sorted page limit).map (storeListItem db),
        ⟨page, totalPages total limit, total, limit⟩⟩
  | _, _ => internalServerError

/-- The WHERE clause of `admin.js` GET `/users`: a truthy search term
matches name, email or address; a truthy role filter matches the role
exactly. -/
def userMatches (search roleFilter : Option String) (u : UserRow) : Bool :=
  (match search with
   | none => true
   | some q => ilike u.name q || ilike u.email q || ilike u.address q) &&
  (match roleFilter with
   | none => true
   | some ro => u.role == ro)

/-- `allowedSortFields = ['name', 'email', 'address', 'role', 'created_at']`
(`admin.js` line 267). -/
def allowedSortFieldsUsers : List String :=
  ["name", "email", "address", "role", "created_at"]

/-- The comparison used by `ORDER BY <sortBy>` on the users table. -/
def userFieldLe (sortBy : String) (a b : UserRow) : Prop :=
  if sortBy = "email" then a.email ≤ b.email
  else if sortBy = "address" then a.address ≤ b.address
  else if sortBy = "role" then a.role ≤ b.role
  else if sortBy = "created_at" then a.created_at ≤ b.created_at
  else a.name ≤ b.name

instance (sortBy : String) : DecidableRel (userFieldLe sortBy) := by
  intro a b; unfold userFieldLe; infer_instance

/-- `ORDER BY <sortBy> <sortOrder>` over the matching users. -/
def sortUsers (sortBy sortOrder : String) (l : List UserRow) : List UserRow :=
  if isDescOrder sortOrder then
    List.insertionSort (fun a b => userFieldLe sortBy b a) l
  else
    List.insertionSort (fun a b => userFieldLe sortBy a b) l

/-- One row of the admin users-list payload (`SELECT id, name, email,
address, role, created_at, updated_at FROM users`). -/
structure UserListItem where
  id : Nat
  name : String
  email : String
  address : String
  role : String
  created_at : Nat
  deriving DecidableEq, Repr

/-- The SELECT list of the users-list query applied to one user row. -/
def userListItem (u : UserRow) : UserListItem :=
  ⟨u.id, u.name, u.email, u.address, u.role, u.created_at⟩

/-- Payload of `GET /api/admin/users`. -/
structure UsersPayload where
  users : List UserListItem
  pagination : Pagination
  deriving DecidableEq, Repr

/-- `GET /api/admin/users` (`admin.js` lines 237-308): same shape as the
stores list: filter by search and role, validate the sort parameters (the
`const` fallback assignment throws, caught as 500), count, and return one
page of the sorted rows. -/
def adminUsersRoute (db : Db) (search roleFilter sortByParam sortOrderParam : Option String)
    (page limit : Nat) : Resp UsersPayload :=
  match resolveSortField allowedSortFieldsUsers "name" sortByParam,
        resolveSortOrder "asc" sortOrderParam with
  | Except.ok sb, Except.ok so =>
    let matching := db.users.filter (userMatches (jsOrNull search) (jsOrNull roleFilter))
    let total := matching.length
    let sorted := sortUsers sb so matching
    Resp.success 200
      ⟨(pageRows sorted page limit).map userListItem,
        ⟨page, totalPages total limit, total, limit⟩⟩
  | _, _ => internalServerError

/-- One row of the user rating-history payload (`users.js` lines 158-166:
ratings joined with their stores). -/
structure UserRatingEntry where
  rating : Int
  created_at : Nat
  updated_at : Nat
  store_id : Nat
  store_name : String
  store_address : String
  deriving DecidableEq, Repr

/-- The `JOIN stores s ON r.store_id = s.id` of the rating-history query:
each rating of the user paired with its store columns (inner join: ratings
whose store is missing drop out). -/
def userRatingEntries (db : Db) (userId : Nat) : List UserRatingEntry :=
  (db.ratings.filter fun r => r.user_id == userId).filterMap fun r =>
    (db.stores.find? fun s => s.id == r.store_id).map fun s =>
      ⟨r.rating, r.created_at, r.updated_at, s.id, s.name, s.address⟩

/-- The comparison used by `ORDER BY` on the rating-history query;
`store_name` sorts by `s.name`. -/
def userRatingLe (sortBy : String) (a b : UserRatingEntry) : Prop :=
  if sortBy = "rating" then a.rating ≤ b.rating
  else if sortBy = "store_name" then a.store_name ≤ b.store_name
  else a.created_at ≤ b.created_at

instance (sortBy : String) : DecidableRel (userRatingLe sortBy) := by
  intro a b; unfold userRatingLe; infer_instance

/-- `ORDER BY <sortBy> <sortOrder>` over the joined rating history. -/
def sortUserRatings (sortBy sortOrder : String) (l : List UserRatingEntry) :
    List UserRatingEntry :=
  if isDescOrder sortOrder then
    List.insertionSort (fun a b => userRatingLe sortBy b a) l
  else
    List.insertionSort (fun a b => userRatingLe sortBy a b) l

/-- Payload of `GET /api/users/ratings`. -/
structure UserRatingsPayload where
  ratings : List UserRatingEntry
  pagination : Pagination
  deriving DecidableEq, Repr

/-- `GET /api/users/ratings` (`users.js` lines 130-184): validate the sort
parameters (the `const` fallback assignment throws, caught as 500), count
the user's ratings, and return one page of the sorted joined history. -/
def userRatingsRoute (db : Db) (userId : Nat) (sortByParam sortOrderParam : Option String)
    (page limit : Nat) : Resp UserRatingsPayload :=
  match resolveSortField ["rating", "created_at", "store_name"] "created_at" sortByParam,
        resolveSortOrder "desc" sortOrderParam with
  | Except.ok sb, Except.ok so =>
    let total := (db.ratings.filter fun r => r.user_id == userId).length
    let sorted := sortUserRatings sb so (userRatingEntries db userId)
    Resp.success 200
      ⟨pageRows sorted page limit, ⟨page, totalPages total limit, total, limit⟩⟩
  | _, _ => internalServerError

/-! ### Database failure semantics (the per-route `try/catch` blocks)

Each route body awaits one or more pool queries; a rejected query throws,
and control reaches the route's `catch`.  A route is modelled as a function
of the database access outcome: `Except.error` stands for a failed
underlying query, `Except.ok db` for successful access to the state `db`. -/

/-- An error thrown by the database driver. -/
inductive DbError where
  | queryFailed
  | bindMismatch
  deriving DecidableEq, Repr

/-- One entry of the public store-ratings payload (`stores.js` lines
117-124: ratings joined with user names). -/
structure StoreRatingEntry where
  rating : Int
  comment : Option String
  created_at : Nat
  user_name : String
  deriving DecidableEq, Repr

instance : DecidableRel (fun a b : StoreRatingEntry => b.created_at ≤ a.created_at) := by
  intro a b; infer_instance

/-- The rows of the public store-ratings query: the store's ratings with
the rater's name (`JOIN users u ON r.user_id = u.id`), newest first,
`LIMIT 50`. -/
def storeRatingsList (db : Db) (storeId : Nat) : List StoreRatingEntry :=
  (List.insertionSort (fun a b => b.created_at ≤ a.created_at)
    ((db.ratings.filter fun r => r.store_id == storeId).filterMap fun r =>
      (db.users.find? fun u => u.id == r.user_id).map fun u =>
        ⟨r.rating, r.comment, r.created_at, u.name⟩)).take 50

/-- `GET /api/stores/:id/ratings` (public; `stores.js` lines 112-133)
including its catch: on a database error this handler does NOT send the
generic 500 but `res.json(\x7b ratings: [] \x7d)`, i.e. a 200 success with an
empty list (source comment: `Return empty ratings array instead of
error`). -/
def storeRatingsEndpoint (dbq : Except DbError Db) (storeId : Nat) :
    Resp (List StoreRatingEntry) :=
  match dbq with
  | Except.error _ => Resp.success 200 []
  | Except.ok db => Resp.success 200 (storeRatingsList db storeId)

/-- `POST /api/ratings/:storeId` including its catch (`ratings.js` lines
74-77): a database error becomes the generic 500. -/
def submitRatingEndpoint (dbq : Except DbError Db) (userId storeId : Nat)
    (rating : Option Int) (comment : Option String) : Resp SubmitPayload :=
  match dbq with
  | Except.error _ => internalServerError
  | Except.ok db => (postRatingRoute db userId storeId rating comment).2

/-- `DELETE /api/ratings/:ratingId` including its catch (`ratings.js`
lines 160-163): a database error becomes the generic 500. -/
def deleteRatingEndpoint (dbq : Except DbError Db) (userId ratingId : Nat) :
    Resp SubmitPayload :=
  match dbq with
  | Except.error _ => internalServerError
  | Except.ok db => (deleteRatingRoute db userId ratingId).2

/-- `GET /api/stores` including its catch (`stores.js` lines 75-78): a
database error becomes the generic 500. -/
def getStoresEndpoint (dbq : Except DbError Db)
    (search sortByParam sortOrderParam : Option String) (page limit : Nat) :
    Resp StoresPayload :=
  match dbq with
  | Except.error _ => internalServerError
  | Except.ok db => getStoresRoute db search sortByParam sortOrderParam page limit

/-- `GET /api/stores/:id` including its catch (`stores.js` lines 105-108):
a database error becomes the generic 500. -/
def getStoreByIdEndpoint (dbq : Except DbError Db) (id : Nat) : Resp StoreDetail :=
  match dbq with
  | Except.error _ => internalServerError
  | Except.ok db => getStoreById db id

/-! ### `GET /api/ratings/user/insights` (`ratings.js` lines 167-246)

Each `pool.query` call is a query text with `$n` placeholders plus a list
of supplied parameter values; the database rejects the query when the
counts disagree.  The fourth query of this handler (the rating
distribution, lines 211-217) references `$1` in its text but the call
passes no values array, so it always fails. -/

/-- Execute one parameterized query: check the supplied value count
against the number of placeholders in the text, then compute the rows. -/
def runQuery {α : Type} (placeholders : Nat) (values : List Nat) (rows : Unit → α) :
    Except DbError α :=
  if values.length = placeholders then Except.ok (rows ()) else Except.error .bindMismatch

/-- The per-user aggregate row of the insights statistics query
(`ratings.js` lines 172-183). -/
structure UserStats where
  total_ratings : Nat
  average_rating : ℚ
  stores_rated : Nat
  positive_ratings : Nat
  negative_ratings : Nat
  deriving DecidableEq, Repr

/-- `SELECT COUNT(*), AVG(rating), COUNT(DISTINCT store_id), ... FROM
ratings WHERE user_id = $1`. -/
def userStats (db : Db) (userId : Nat) : UserStats :=
  let rs := db.ratings.filter fun r => r.user_id == userId
  ⟨rs.length, sqlAvg (rs.map RatingRow.rating),
    ((rs.map RatingRow.store_id).dedup).length,
    rs.countP fun r => decide (4 ≤ r.rating),
    rs.countP fun r => decide (r.rating ≤ 2)⟩

/-- One bucket of the day-grouped trends query (`ratings.js` lines
186-196). -/
structure TrendRow where
  date : Nat
  avg_rating : ℚ
  daily_ratings : Nat
  deriving DecidableEq, Repr

/-- `SELECT DATE(created_at), AVG(rating), COUNT(*) ... WHERE user_id = $1
AND created_at >= NOW() - INTERVAL '30 days' GROUP BY DATE(created_at)`. -/
def userTrends (db : Db) (userId : Nat) : List TrendRow :=
  let rs := db.ratings.filter fun r => r.user_id == userId && db.now - 30 ≤ r.created_at
  ((rs.map RatingRow.created_at).dedup).map fun d =>
    let day := rs.filter fun r => r.created_at == d
    ⟨d, sqlAvg (day.map RatingRow.rating), day.length⟩

/-- `SELECT s.id, s.name, ... WHERE r.user_id = $1 AND r.rating >= 4`
(the favourite-stores query, `ratings.js` lines 199-208). -/
def favoriteStores (db : Db) (userId : Nat) : List (Nat × String) :=
  ((db.ratings.filter fun r => r.user_id == userId && decide (4 ≤ r.rating)).filterMap
    fun r => (db.stores.find? fun s => s.id == r.store_id).map fun s => (s.id, s.name)).take 5

/-- The rows the rating-distribution query would produce, were its
parameter bound. -/
def ratingDistributionRows (db : Db) (userId : Nat) : List (Int × Nat) :=
  ((db.ratings.filter fun r => r.user_id == userId).map RatingRow.rating).dedup.map
    fun v => (v, (db.ratings.filter fun r => r.user_id == userId).countP
      fun r => r.rating == v)

/-- The assembled insights payload (`ratings.js` lines 219-240). -/
structure InsightsPayload where
  stats : UserStats
  trends : List TrendRow
  favorites : List (Nat × String)
  distribution : List (Int × Nat)
  deriving DecidableEq, Repr

/-- `GET /api/ratings/user/insights` (`ratings.js` lines 167-246): four
awaited queries, then the payload.  The first three supply `[userId]` for
their `$1`; the fourth (the rating distribution, lines 211-217) has `$1`
in its text but the `pool.query` call passes no values, so the driver
rejects it, the `await` throws, and the catch sends the generic 500. -/
def userInsightsRoute (db : Db) (userId : Nat) : Resp InsightsPayload :=
  match (do
    let stats ← runQuery 1 [userId] fun _ => userStats db userId
    let trends ← runQuery 1 [userId] fun _ => userTrends db userId
    let favs ← runQuery 1 [userId] fun _ => favoriteStores db userId
    let dist ← runQuery 1 [] fun _ => ratingDistributionRows db userId
    Except.ok (⟨stats, trends, favs, dist⟩ : InsightsPayload) : Except DbError InsightsPayload) with
  | Except.ok payload => Resp.success 200 payload
  | Except.error _ => internalServerError

/-! ### Express routing of `src/routes/ratings.js` (for route shadowing)

Express dispatches a request to the first registered route whose method
and path pattern match; a `/:param` segment matches any single path
segment. -/

/-- An HTTP method. -/
inductive HttpMethod where
  | get
  | post
  | put
  | delete
  deriving DecidableEq, BEq, Repr

/-- One segment of an Express path pattern. -/
inductive PathSeg where
  | lit (s : String)
  | param (name : String)
  deriving DecidableEq, Repr

/-- Whether a pattern segment matches a concrete path segment. -/
def segMatches : PathSeg → String → Bool
  | .lit s, x => s == x
  | .param _, _ => true

/-- Whether a full pattern matches a concrete path. -/
def patternMatches (pat : List PathSeg) (path : List String) : Bool :=
  pat.length == path.length && (pat.zip path).all fun px => segMatches px.1 px.2

/-- A registered route: method, pattern, and the handler's name. -/
structure Route where
  method : HttpMethod
  pattern : List PathSeg
  handler : String
  deriving DecidableEq, Repr

/-- The routes of `ratings.js` in registration order (lines 12, 81, 127,
167, 249, 316, 373, 397, 453). -/
def ratingsRouterRoutes : List Route :=
  [⟨.post, [.param "storeId"], "submitRating"⟩,
   ⟨.put, [.param "ratingId"], "updateRating"⟩,
   ⟨.delete, [.param "ratingId"], "deleteRatingById"⟩,
   ⟨.get, [.lit "user", .lit "insights"], "userInsights"⟩,
   ⟨.get, [.lit "user", .lit "recommendations"], "userRecommendations"⟩,
   ⟨.get, [.lit "user"], "userRatingsList"⟩,
   ⟨.get, [.lit "user", .param "storeId"], "userStoreRating"⟩,
   ⟨.get, [.lit "user", .lit "stats"], "userRatingStats"⟩,
   ⟨.delete, [.param "storeId"], "deleteRatingByStore"⟩]

/-- Express dispatch: the first registered route whose method and pattern
match the request. -/
def dispatch (m : HttpMethod) (path : List String) : Option Route :=
  ratingsRouterRoutes.find? fun r => decide (r.method = m) && patternMatches r.pattern path

/-! ### Concrete sample states (used by the witnesses) -/

/-- A sample store. -/
def sampleStore : StoreRow :=
  ⟨1, "City Market", "city@example.com", "12 Market Street, Springfield", some 2, 5⟩

/-- A sample user. -/
def sampleUser : UserRow :=
  ⟨1, "John Doe - Normal User Example", "john@example.com",
    bcryptHash "password123", "34 Elm Street, Springfield", "normal_user", 3⟩

/-- A sample database with one user, one store and no ratings. -/
def sampleDb : Db :=
  ⟨[sampleUser], [sampleStore], [], 2, 1, 20⟩

/-- A sample database whose store has two ratings (values 5 and 3). -/
def sampleDb2 : Db :=
  ⟨[sampleUser], [sampleStore],
    [⟨1, 1, 1, 5, none, 6, 6⟩, ⟨2, 3, 1, 3, none, 7, 7⟩], 2, 3, 20⟩

/-! ### Statements of the larger laws (instantiated by the witnesses) -/

/-- The upsert law for two successive submissions by user `u` for store
`s`: afterwards exactly one ratings row carries the (u, s) key, its value
and comment are those of the second submission, its row id already existed
after the first submission (updates happen in place), the first submission
responds 201 when no row existed before, and the second responds 200. -/
def UpsertLawAt (db : Db) (u s : Nat) (r₁ r₂ : Int) (c₁ c₂ : Option String) : Prop :=
  let db₁ := (postRatingRoute db u s (some r₁) c₁).1
  let db₂ := (postRatingRoute db₁ u s (some r₂) c₂).1
  db₂.ratings.countP (ratingKey u s) = 1 ∧
  (∀ r ∈ db₂.ratings, ratingKey u s r = true → r.rating = r₂ ∧ r.comment = jsOrNull c₂) ∧
  (∀ r ∈ db₂.ratings, ratingKey u s r = true →
    ∃ q ∈ db₁.ratings, ratingKey u s q = true ∧ q.id = r.id) ∧
  (db.ratings.countP (ratingKey u s) = 0 →
    ∃ p, (postRatingRoute db u s (some r₁) c₁).2 = Resp.success 201 p) ∧
  (∃ p, (postRatingRoute db₁ u s (some r₂) c₂).2 = Resp.success 200 p)

/-- The aggregate postcondition of the store read endpoint for store row
`s`: the response reports exactly the LEFT JOIN aggregates, which are
(0, 0) for a store with no ratings and (mean, n) for a store with rating
values `l`, `l.length = n ≥ 1`. -/
def StoreAggregatesAt (db : Db) (s : StoreRow) : Prop :=
  getStoreById db s.id = Resp.success 200
      ⟨s.id, s.name, s.address, s.created_at, storeAverage db s.id, storeCount db s.id⟩ ∧
  (storeRatingValues db s.id = [] → storeAverage db s.id = 0 ∧ storeCount db s.id = 0) ∧
  (∀ l : List Int, storeRatingValues db s.id = l → l ≠ [] →
    storeAverage db s.id = (l.sum : ℚ) / (l.length : ℚ) ∧ storeCount db s.id = l.length)

/-- Concatenating the pages `1 .. totalPages` of a row list reproduces the
row list exactly. -/
def ListPaginationLaw {α : Type} (rows : List α) (L : Nat) : Prop :=
  ((List.range (totalPages rows.length L)).map fun i => pageRows rows (i + 1) L).flatten = rows

/-- The pagination law at one database state, page and limit, for the two
modelled list endpoints with their default sort and no filters: each
response reports `totalPages = ceil(total/limit)` and serves the page at
offset `(page-1)*limit` of the sorted matching rows; concatenating all
pages reproduces the sorted row list, which is a permutation of the full
matching set; and `totalPages` is exactly the ceiling of the division. -/
def PaginationLawAt (db : Db) (p L : Nat) : Prop :=
  (getStoresRoute db none none none p L = Resp.success 200
    ⟨(pageRows (sortStores "name" "asc" db.stores) p L).map (storeListItem db),
      ⟨p, totalPages db.stores.length L, db.stores.length, L⟩⟩) ∧
  ListPaginationLaw (sortStores "name" "asc" db.stores) L ∧
  List.Perm (sortStores "name" "asc" db.stores) db.stores ∧
  (adminUsersRoute db none none none none p L = Resp.success 200
    ⟨(pageRows (sortUsers "name" "asc" db.users) p L).map userListItem,
      ⟨p, totalPages db.users.length L, db.users.length, L⟩⟩) ∧
  ListPaginationLaw (sortUsers "name" "asc" db.users) L ∧
  List.Perm (sortUsers "name" "asc" db.users) db.users ∧
  (∀ N : Nat, totalPages N L = Nat.ceil ((N : ℚ) / (L : ℚ)))

/-- The register/login round trip at one database state and registration
payload: registration responds 201 with role `normal_user`, and logging in
with the same email and password on the resulting state responds 200 with
a token whose decoded claims carry the same user id and role. -/
def RoundTripAt (db : Db) (name email password address : String) : Prop :=
  ∃ db₁ p₁, registerRoute db name email password address = (db₁, Resp.success 201 p₁) ∧
    p₁.role = "normal_user" ∧
    ∃ p₂, loginRoute db₁ email password = Resp.success 200 p₂ ∧
      (jwtDecode p₂.token).userId = p₁.userId ∧
      (jwtDecode p₂.token).role = p₁.role

/-! ## Theorems -/

/-- C9: every authenticated request to `GET /api/ratings/user/insights`
receives the generic internal-error (500) response: the rating-distribution
query text references `$1` but the call supplies no parameter values, so
that query always fails and control always reaches the catch branch; the
insights payload is never returned. -/
theorem user_insights_always_500 (db : Db) (userId : Nat) :
    userInsightsRoute db userId = internalServerError := by
  simp [userInsightsRoute, runQuery, Bind.bind, Except.bind]

/-- C10: route shadowing on rating deletion in `ratings.js`: every
`DELETE /api/ratings/:x` request (a single path segment) is dispatched to
the first registered delete handler, which interprets `x` as a rating id;
the later handler keyed on a store id is unreachable for every path. -/
theorem delete_route_shadowing :
    (∀ x : String, dispatch .delete [x] =
      some ⟨.delete, [.param "ratingId"], "deleteRatingById"⟩) ∧
    (∀ (path : List String) (r : Route),
      dispatch .delete path = some r → r.handler ≠ "deleteRatingByStore") := by
  constructor
  · intro x
    simp [dispatch, ratingsRouterRoutes, patternMatches, segMatches, List.find?]
  · intro path r h
    match path with
    | [] => simp [dispatch, ratingsRouterRoutes, patternMatches, List.find?] at h
    | [x] =>
      simp [dispatch, ratingsRouterRoutes, patternMatches, segMatches, List.find?] at h
      subst h
      decide
    | x :: y :: rest =>
      simp [dispatch, ratingsRouterRoutes, patternMatches, segMatches, List.find?] at h

/-- C5 counterexample: the public `GET /api/stores/:id/ratings` endpoint
does NOT surface a database error as the generic 500 response: its catch
responds 200 with an empty ratings array, a success response fabricated
from the error path. -/
theorem store_ratings_db_error_not_500 :
    storeRatingsEndpoint (Except.error DbError.queryFailed) 1 = Resp.success 200 [] ∧
    storeRatingsEndpoint (Except.error DbError.queryFailed) 1 ≠
      (internalServerError : Resp (List StoreRatingEntry)) := by
  exact ⟨rfl, by simp [storeRatingsEndpoint, internalServerError]⟩

/-- C5 (amended): every modelled endpoint surfaces a database error as the
generic internal-error (500) response, with one exception: the public
`GET /api/stores/:id/ratings` responds 200 with an empty ratings array on
a database error. -/
theorem db_error_surfacing (e : DbError) (userId storeId ratingId id page limit : Nat)
    (rating : Option Int) (comment search sb so : Option String) :
    submitRatingEndpoint (Except.error e) userId storeId rating comment = internalServerError ∧
    deleteRatingEndpoint (Except.error e) userId ratingId = internalServerError ∧
    getStoresEndpoint (Except.error e) search sb so page limit = internalServerError ∧
    getStoreByIdEndpoint (Except.error e) id = internalServerError ∧
    storeRatingsEndpoint (Except.error e) storeId = Resp.success 200 [] :=
  ⟨rfl, rfl, rfl, rfl, rfl⟩

/-- C6: a rating submission whose rating value is not an integer in [1,5]
is rejected by the validation middleware with a bad-request (400) response
and the database state, in particular the ratings table, is unchanged. -/
theorem rating_validation_atomic (db : Db) (userId storeId : Nat)
    (rating : Option Int) (comment : Option String)
    (h : validateRating rating = false) :
    postRatingRoute db userId storeId rating comment =
      (db, Resp.failure 400 "Rating must be an integer between 1 and 5") := by
  simp [postRatingRoute, h]

/-- C6 witness: submitting rating 6 against the sample database is
rejected with a 400 and leaves the database unchanged. -/
theorem rating_validation_atomic_witness :
    validateRating (some 6) = false ∧
    postRatingRoute sampleDb 1 1 (some 6) none =
      (sampleDb, Resp.failure 400 "Rating must be an integer between 1 and 5") :=
  ⟨by decide, rating_validation_atomic sampleDb 1 1 (some 6) none (by decide)⟩

/-- C8: a delete-rating request whose target rating does not exist or is
not owned by the requesting user receives the 404 not-found/unauthorized
response and the database state, in particular every ratings row, is
unchanged. -/
theorem delete_nonowned_atomic (db : Db) (userId ratingId : Nat)
    (h : ∀ r ∈ db.ratings, ¬(r.id = ratingId ∧ r.user_id = userId)) :
    deleteRatingRoute db userId ratingId =
      (db, Resp.failure 404 "Rating not found or unauthorized") := by
  have hfind : db.ratings.find? (fun r => r.id == ratingId && r.user_id == userId) = none := by
    apply List.find?_eq_none.mpr
    intro r hr
    simpa using h r hr
  simp [deleteRatingRoute, hfind]

/-- C8 witness: deleting the nonexistent rating 99 as user 1 from the
sample database with two ratings returns 404 and changes nothing. -/
theorem delete_nonowned_atomic_witness :
    (∀ r ∈ sampleDb2.ratings, ¬(r.id = 99 ∧ r.user_id = 1)) ∧
    deleteRatingRoute sampleDb2 1 99 =
      (sampleDb2, Resp.failure 404 "Rating not found or unauthorized") :=
  ⟨by decide, delete_nonowned_atomic sampleDb2 1 99 (by decide)⟩

/-- C4 (code evaluated at the failing inputs): a list request that
supplies a sort field outside the allow-list does not fall back to the
default sort: the fallback assignment to the `const`-declared binding
throws a `TypeError`, which each route's catch converts to the generic
500 response.  This holds for all three modelled list endpoints; the same
request without the parameter succeeds. -/
theorem sort_fallback_throws :
    getStoresRoute sampleDb none (some "rating") none 1 20 =
      (internalServerError : Resp StoresPayload) ∧
    adminUsersRoute sampleDb none none (some "rating") none 1 20 =
      (internalServerError : Resp UsersPayload) ∧
    userRatingsRoute sampleDb 1 (some "bogus") none 1 20 =
      (internalServerError : Resp UserRatingsPayload) ∧
    getStoresRoute sampleDb none none (some "sideways") 1 20 =
      (internalServerError : Resp StoresPayload) ∧
    getStoresRoute sampleDb none none none 1 20 =
      Resp.success 200 ⟨[storeListItem sampleDb sampleStore], ⟨1, totalPages 1 20, 1, 20⟩⟩ :=
  ⟨rfl, rfl, rfl, rfl, rfl⟩

/-- C2: the store read endpoint reports, for every existing store, exactly
the LEFT JOIN aggregates: average_rating 0 and total_ratings 0 when the
store has no ratings, and average_rating = (r1+...+rn)/n with
total_ratings = n when its rating values are r1..rn, n >= 1. -/
theorem store_aggregates (db : Db) (s : StoreRow)
    (h : db.stores.find? (fun t => t.id == s.id) = some s) :
    StoreAggregatesAt db s := by
  refine ⟨?_, ?_, ?_⟩
  · simp [getStoreById, h]
  · intro he
    simp [storeAverage, storeCount, sqlAvg, he]
  · intro l hl hne
    have hlen : ¬(l.length = 0) := by
      simpa [List.length_eq_zero] using hne
    simp [storeAverage, storeCount, sqlAvg, hl, hlen]

/-- C2 witness: the sample store with rating values [5, 3] reports
average 4 and count 2 through the read endpoint. -/
theorem store_aggregates_witness :
    (sampleDb2.stores.find? (fun t => t.id == sampleStore.id) = some sampleStore) ∧
    StoreAggregatesAt sampleDb2 sampleStore :=
  ⟨by decide, store_aggregates sampleDb2 sampleStore (by decide)⟩

/-- C7: for every valid registration payload whose email is not already
registered, registration succeeds (201, role `normal_user`), and a
subsequent login with the same email and password succeeds (200) and
returns a token whose decoded claims carry the same user id and the same
role as the registered account. -/
theorem register_login_round_trip (db : Db) (name email password address : String)
    (hvalid : validRegistration name email password address = true)
    (hfresh : ∀ u ∈ db.users, u.email ≠ email) :
    RoundTripAt db name email password address := by
  have hfind : db.users.find? (fun u => u.email == email) = none := by
    apply List.find?_eq_none.mpr
    intro u hu
    simpa using hfresh u hu
  have hreg : registerRoute db name email password address =
      ({ db with
          users := db.users ++
            [⟨db.nextUserId, name, email, bcryptHash password, address, "normal_user", db.now⟩],
          nextUserId := db.nextUserId + 1 },
        Resp.success 201
          ⟨"User registered successfully", db.nextUserId, name, email, address,
            "normal_user", jwtSign ⟨db.nextUserId, email, "normal_user"⟩ jwtSecret⟩) := by
    simp [registerRoute, hvalid, hfind]
  have hlogin :
      loginRoute
        ({ db with
            users := db.users ++
              [⟨db.nextUserId, name, email, bcryptHash password, address, "normal_user", db.now⟩],
            nextUserId := db.nextUserId + 1 }) email password =
      Resp.success 200
        ⟨"Login successful", db.nextUserId, name, email, address, "normal_user",
          jwtSign ⟨db.nextUserId, email, "normal_user"⟩ jwtSecret⟩ := by
    simp [loginRoute, List.find?_append, hfind, List.find?, bcryptCompare]
  exact ⟨_, _, hreg, rfl, _, hlogin, rfl, rfl⟩

/-- C7 witness: registering a fresh valid account on the sample database
and logging back in round-trips the user id and role through the token. -/
theorem register_login_round_trip_witness :
    validRegistration "Sarah Wilson - Another Store Owner" "sarah@example.com"
        "password123" "56 Oak Avenue, Springfield" = true ∧
    (∀ u ∈ sampleDb.users, u.email ≠ "sarah@example.com") ∧
    RoundTripAt sampleDb "Sarah Wilson - Another Store Owner" "sarah@example.com"
        "password123" "56 Oak Avenue, Springfield" :=
  ⟨by decide, by decide,
    register_login_round_trip sampleDb "Sarah Wilson - Another Store Owner"
      "sarah@example.com" "password123" "56 Oak Avenue, Springfield"
      (by decide) (by decide)⟩

theorem ratingKey_iff (u s : Nat) (r : RatingRow) :
    ratingKey u s r = true ↔ r.user_id = u ∧ r.store_id = s := by
  simp [ratingKey]

theorem ratingKey_update (u s : Nat) (rv : Int) (c : Option String) (t : Nat) (r : RatingRow) :
    ratingKey u s { r with rating := rv, comment := c, updated_at := t } = ratingKey u s r :=
  rfl

/-- Under the uniqueness constraint, at most one row carries a given
(user, store) key. -/
theorem countP_key_le_one (l : List RatingRow) (u s : Nat)
    (h : l.Pairwise fun a b => ¬(a.user_id = b.user_id ∧ a.store_id = b.store_id)) :
    l.countP (ratingKey u s) ≤ 1 := by
  induction l with
  | nil => simp
  | cons a l ih =>
    rw [List.pairwise_cons] at h
    by_cases hk : ratingKey u s a = true
    · have ha := (ratingKey_iff u s a).mp hk
      have hzero : l.countP (ratingKey u s) = 0 := by
        apply List.countP_eq_zero.mpr
        intro b hb hkb
        have hbb := (ratingKey_iff u s b).mp (by simpa using hkb)
        exact h.1 b hb ⟨ha.1.trans hbb.1.symm, ha.2.trans hbb.2.symm⟩
      simp [List.countP_cons, hk, hzero]
    · simp only [List.countP_cons, hk, if_false]
      simpa using ih h.2

/-- The effect of one rating submission on the ratings table, for an
existing store: the submission leaves the stores table alone, leaves
exactly one row with the (user, store) key, that row carries the submitted
value and comment, uniqueness is preserved, a fresh pair INSERTs (201),
and an existing pair UPDATEs in place (200, ids preserved). -/
theorem submit_step (db : Db) (u s : Nat) (rv : Int) (c : Option String)
    (huniq : RatingsUnique db) (hs : storeExists db s = true) :
    (submitRatingHandler db u s rv c).1.stores = db.stores ∧
    ((submitRatingHandler db u s rv c).1.ratings.countP (ratingKey u s) = 1) ∧
    (∀ r ∈ (submitRatingHandler db u s rv c).1.ratings,
      ratingKey u s r = true → r.rating = rv ∧ r.comment = jsOrNull c) ∧
    RatingsUnique (submitRatingHandler db u s rv c).1 ∧
    (db.ratings.find? (ratingKey u s) = none →
      ∃ p, (submitRatingHandler db u s rv c).2 = Resp.success 201 p) ∧
    (∀ a, db.ratings.find? (ratingKey u s) = some a →
      (∃ p, (submitRatingHandler db u s rv c).2 = Resp.success 200 p) ∧
      (∀ r ∈ (submitRatingHandler db u s rv c).1.ratings, ratingKey u s r = true →
        ∃ q ∈ db.ratings, ratingKey u s q = true ∧ q.id = r.id)) := by
  unfold submitRatingHandler
  simp only [hs, not_true_eq_false, if_false]
  cases hfind : db.ratings.find? (ratingKey u s) with
  | none =>
    have hnokey : ∀ r ∈ db.ratings, ¬ ratingKey u s r = true := by
      intro r hr
      simpa using List.find?_eq_none.mp hfind r hr
    have hkeynew : ratingKey u s
        (⟨db.nextRatingId, u, s, rv, jsOrNull c, db.now, db.now⟩ : RatingRow) = true := by
      simp [ratingKey]
    refine ⟨rfl, ?_, ?_, ?_, ?_, ?_⟩
    · rw [List.countP_append]
      rw [List.countP_eq_zero.mpr (by intro r hr hk; exact hnokey r hr hk)]
      simp [List.countP_cons, hkeynew]
    · intro r hr hk
      rcases List.mem_append.mp hr with hr | hr
      · exact absurd hk (hnokey r hr)
      · rcases List.mem_singleton.mp hr with rfl
        exact ⟨rfl, rfl⟩
    · unfold RatingsUnique
      rw [List.pairwise_append]
      refine ⟨huniq, by simp, ?_⟩
      intro a ha b hb
      rcases List.mem_singleton.mp hb with rfl
      intro hab
      exact hnokey a ha (by simpa [ratingKey_iff] using hab)
    · intro _
      exact ⟨_, rfl⟩
    · intro a ha
      simp at ha
  | some a =>
    have hka : ratingKey u s a = true := List.find?_some hfind
    have hmema : a ∈ db.ratings := List.mem_of_find?_eq_some hfind
    have hkmap : ∀ r : RatingRow, ratingKey u s
        (if ratingKey u s r = true then
          { r with rating := rv, comment := jsOrNull c, updated_at := db.now }
        else r) = ratingKey u s r := by
      intro r
      by_cases hk : ratingKey u s r = true
      · rw [if_pos hk, ratingKey_update]
      · rw [if_neg hk]
    refine ⟨rfl, ?_, ?_, ?_, ?_, ?_⟩
    · rw [List.countP_map]
      have : (db.ratings.countP fun r => ratingKey u s
          (if ratingKey u s r = true then
            { r with rating := rv, comment := jsOrNull c, updated_at := db.now }
          else r)) = db.ratings.countP (ratingKey u s) := by
        apply List.countP_congr
        intro r _
        rw [hkmap r]
      rw [show ((ratingKey u s) ∘ fun r =>
          if ratingKey u s r = true then
            { r with rating := rv, comment := jsOrNull c, updated_at := db.now }
          else r) = fun r => ratingKey u s
          (if ratingKey u s r = true then
            { r with rating := rv, comment := jsOrNull c, updated_at := db.now }
          else r) from rfl]
      rw [this]
      have hle := countP_key_le_one db.ratings u s huniq
      have hpos : 0 < db.ratings.countP (ratingKey u s) :=
        List.countP_pos_iff.mpr ⟨a, hmema, hka⟩
      omega
    · intro r hr hk
      rcases List.mem_map.mp hr with ⟨b, hb, hfb⟩
      by_cases hkb : ratingKey u s b = true
      · rw [if_pos hkb] at hfb
        rcases hfb with rfl
        exact ⟨rfl, rfl⟩
      · rw [if_neg hkb] at hfb
        rcases hfb with rfl
        exact absurd hk hkb
    · unfold RatingsUnique
      rw [List.pairwise_map]
      apply huniq.imp
      intro x y hxy
      by_cases hkx : ratingKey u s x = true <;>
        by_cases hky : ratingKey u s y = true <;>
          simpa [hkx, hky] using hxy
    · intro hnone
      simp at hnone
    · intro b _
      refine ⟨⟨_, rfl⟩, ?_⟩
      intro r hr hk
      rcases List.mem_map.mp hr with ⟨q, hq, hfq⟩
      by_cases hkq : ratingKey u s q = true
      · rw [if_pos hkq] at hfq
        rcases hfq with rfl
        exact ⟨q, hq, hkq, rfl⟩
      · rw [if_neg hkq] at hfq
        rcases hfq with rfl
        exact absurd hk hkq

/-- A submission does not change which stores exist. -/
theorem submit_storeExists (db : Db) (u s t : Nat) (rv : Int) (c : Option String)
    (hst : (submitRatingHandler db u s rv c).1.stores = db.stores) :
    storeExists (submitRatingHandler db u s rv c).1 t = storeExists db t := by
  simp [storeExists, hst]

/-- C1: the rating-submission upsert law: after any two rating submissions
by user `u` for store `s`, exactly one ratings row carries the (u, s)
pair, its rating value and comment are those of the most recent
submission, the second submission updated the row in place (the row id
already existed after the first submission), the first submission INSERTs
(201) when no row existed, and the second UPDATEs (200). -/
theorem ratings_upsert_law (db : Db) (u s : Nat) (r₁ r₂ : Int) (c₁ c₂ : Option String)
    (huniq : RatingsUnique db) (hstore : storeExists db s = true)
    (h₁ : validateRating (some r₁) = true) (h₂ : validateRating (some r₂) = true) :
    UpsertLawAt db u s r₁ r₂ c₁ c₂ := by
  unfold UpsertLawAt
  simp only [postRatingRoute, h₁, h₂, if_true, Option.getD_some]
  obtain ⟨hst₁, hcnt₁, _, huniq₁, h201, _⟩ :=
    submit_step db u s r₁ c₁ huniq hstore
  have hstore₁ : storeExists (submitRatingHandler db u s r₁ c₁).1 s = true := by
    rw [submit_storeExists db u s s r₁ c₁ hst₁]
    exact hstore
  obtain ⟨_, hcnt₂, hval₂, _, _, hupd₂⟩ :=
    submit_step (submitRatingHandler db u s r₁ c₁).1 u s r₂ c₂ huniq₁ hstore₁
  have hsome : ∃ a, (submitRatingHandler db u s r₁ c₁).1.ratings.find? (ratingKey u s) = some a := by
    rw [← Option.isSome_iff_exists]
    rw [List.find?_isSome]
    exact List.countP_pos_iff.mp (by omega)
  obtain ⟨a, ha⟩ := hsome
  obtain ⟨h200, hinplace⟩ := hupd₂ a ha
  refine ⟨hcnt₂, hval₂, hinplace, ?_, h200⟩
  intro hzero
  apply h201
  apply List.find?_eq_none.mpr
  intro r hr hk
  have := List.countP_eq_zero.mp hzero r hr
  exact this hk

/-- C1 witness: submitting rating 5 then rating 3 (with a comment) as
user 1 for store 1 of the sample database leaves exactly one row holding
rating 3 and the second comment. -/
theorem ratings_upsert_law_witness :
    RatingsUnique sampleDb ∧ storeExists sampleDb 1 = true ∧
    validateRating (some 5) = true ∧ validateRating (some 3) = true ∧
    UpsertLawAt sampleDb 1 1 5 3 none (some "better this time") :=
  ⟨by decide, by decide, by decide, by decide,
    ratings_upsert_law sampleDb 1 1 5 3 none (some "better this time")
      (by decide) (by decide) (by decide) (by decide)⟩

/-- `N ≤ ceil(N/L) * L`: the last page ends at or after the last row. -/
theorem totalPages_mul_ge (n L : Nat) (hL : 1 ≤ L) : n ≤ totalPages n L * L := by
  have hceil := Nat.le_ceil ((n : ℚ) / (L : ℚ))
  have hLpos : (0 : ℚ) < (L : ℚ) := by exact_mod_cast hL
  rw [div_le_iff₀ hLpos] at hceil
  have hc : (n : ℚ) ≤ ((totalPages n L * L : Nat) : ℚ) := by
    push_cast
    simpa [totalPages] using hceil
  exact_mod_cast hc

/-- Concatenating the first `k` pages of size `L` yields the first `k*L`
rows. -/
theorem flatten_take_pages {α : Type} (rows : List α) (L k : Nat) :
    ((List.range k).map fun i => (rows.drop (i * L)).take L).flatten = rows.take (k * L) := by
  induction k with
  | zero => simp
  | succ k ih =>
    rw [List.range_succ, List.map_append, List.flatten_append]
    simp only [List.map_cons, List.map_nil, List.flatten_cons, List.flatten_nil,
      List.append_nil]
    rw [ih, Nat.succ_mul, List.take_add]

/-- The generic page-concatenation law for any row list and any positive
limit. -/
theorem list_pagination_law {α : Type} (rows : List α) (L : Nat) (hL : 1 ≤ L) :
    ListPaginationLaw rows L := by
  unfold ListPaginationLaw
  simp only [pageRows, Nat.add_sub_cancel]
  rw [flatten_take_pages]
  exact List.take_of_length_le (totalPages_mul_ge rows.length L hL)

/-- `ORDER BY` permutes the matching rows of the stores list. -/
theorem sortStores_perm (sb so : String) (l : List StoreRow) :
    List.Perm (sortStores sb so l) l := by
  unfold sortStores
  split
  · exact List.perm_insertionSort _ l
  · exact List.perm_insertionSort _ l

/-- `ORDER BY` permutes the matching rows of the users list. -/
theorem sortUsers_perm (sb so : String) (l : List UserRow) :
    List.Perm (sortUsers sb so l) l := by
  unfold sortUsers
  split
  · exact List.perm_insertionSort _ l
  · exact List.perm_insertionSort _ l

/-- An absent search term matches every store (`WHERE 1=1`). -/
theorem filter_storeSearch_none (l : List StoreRow) :
    l.filter (storeMatchesSearch none) = l :=
  List.filter_eq_self.mpr fun _ _ => rfl

/-- Absent search and role filters match every user (`WHERE 1=1`). -/
theorem filter_userMatches_none (l : List UserRow) :
    l.filter (userMatches none none) = l :=
  List.filter_eq_self.mpr fun _ _ => rfl

/-- The stores list route with default parameters: one page of the sorted
full table, with `totalPages = ceil(total/limit)` metadata. -/
theorem getStores_default_eq (db : Db) (p L : Nat) :
    getStoresRoute db none none none p L = Resp.success 200
      ⟨(pageRows (sortStores "name" "asc" db.stores) p L).map (storeListItem db),
        ⟨p, totalPages db.stores.length L, db.stores.length, L⟩⟩ := by
  simp [getStoresRoute, resolveSortField, resolveSortOrder, jsOrNull, filter_storeSearch_none]

/-- The admin users list route with default parameters: one page of the
sorted full table, with `totalPages = ceil(total/limit)` metadata. -/
theorem adminUsers_default_eq (db : Db) (p L : Nat) :
    adminUsersRoute db none none none none p L = Resp.success 200
      ⟨(pageRows (sortUsers "name" "asc" db.users) p L).map userListItem,
        ⟨p, totalPages db.users.length L, db.users.length, L⟩⟩ := by
  simp [adminUsersRoute, resolveSortField, resolveSortOrder, jsOrNull, filter_userMatches_none]

/-- C3: the pagination law for the modelled list endpoints: for limit
L >= 1 and page p >= 1, the reported total page count is ceil(N/L) for N
matching rows, page p serves the rows at offset (p-1)*L of the sorted
matching rows, and concatenating pages 1..ceil(N/L) reproduces the sorted
matching rows, which are a permutation of the full matching set — no
duplicates or omissions. -/
theorem pagination_law (db : Db) (p L : Nat) (hL : 1 ≤ L) (_hp : 1 ≤ p) :
    PaginationLawAt db p L :=
  ⟨getStores_default_eq db p L,
    list_pagination_law _ L hL,
    sortStores_perm "name" "asc" db.stores,
    adminUsers_default_eq db p L,
    list_pagination_law _ L hL,
    sortUsers_perm "name" "asc" db.users,
    fun _ => rfl⟩

/-- C3 witness: page 1 with limit 2 of the sample database with two
ratings satisfies the pagination law. -/
theorem pagination_law_witness :
    1 ≤ 2 ∧ 1 ≤ 1 ∧ PaginationLawAt sampleDb2 1 2 :=
  ⟨by decide, by decide, pagination_law sampleDb2 1 2 (by decide) (by decide)⟩

end StoreRatings
